import Mathlib

/-!
Shallow embedding of the ProofOfSkillSwarm contract
(frontend/src/ProofOfSkillInterface.jsx, Solidity source embedded there).

Conventions of the embedding:
* Solidity `address` and `bytes32` are modelled as `Nat` (opaque identifiers);
  `uint256` is modelled as `Nat` (the counters and levels involved never
  approach 2^256 along reachable states, and Solidity 0.8 reverts rather than
  wraps on overflow).
* A Solidity mapping is a total function `Nat → _` returning the zero-valued
  default record for absent keys, exactly as the EVM does.
* A reverting call (failed `require`, failed `transfer`) is `.error e`:
  the caller's state is unchanged because no new state is produced, which is
  Solidity's transaction-rollback semantics.
* `keccak256(bytes a) == keccak256(bytes b)` on skill-type strings is modelled
  as string equality (collision-freeness assumption the contract relies on).
* `msg.sender`, `msg.value` and `block.timestamp` are explicit parameters.
* Emitted events are recorded in an append-only `events` list.
-/

namespace ProofOfSkill

/-- Mirror of the Solidity struct `SkillChallenge`. -/
structure SkillChallenge where
  challengeId : Nat
  challengeType : String
  difficulty : Nat
  timeLimit : Nat
  reward : Nat
  isActive : Bool
  creator : Nat
  challengeHash : Nat
  deriving DecidableEq

/-- Zero-initialised challenge record (EVM mapping default). -/
def defaultChallenge : SkillChallenge :=
  ⟨0, "", 0, 0, 0, false, 0, 0⟩

/-- Mirror of the Solidity struct `SkillProof`. -/
structure SkillProof where
  proofId : Nat
  challengeId : Nat
  solver : Nat
  completionTime : Nat
  score : Nat
  solutionHash : Nat
  zkProof : Nat
  verified : Bool
  deriving DecidableEq

/-- Zero-initialised proof record (EVM mapping default). -/
def defaultProof : SkillProof :=
  ⟨0, 0, 0, 0, 0, 0, 0, false⟩

/-- Mirror of the Solidity struct `SkillNFT`. -/
structure SkillNFT where
  tokenId : Nat
  owner : Nat
  skillType : String
  proficiencyLevel : Nat
  totalEarnings : Nat
  verificationCount : Nat
  createdAt : Nat
  deriving DecidableEq

/-- Zero-initialised NFT record (EVM mapping default). -/
def defaultNFT : SkillNFT :=
  ⟨0, 0, "", 0, 0, 0, 0⟩

/-- The events the contract emits. -/
inductive Event where
  | ChallengeCreated (challengeId : Nat) (challengeType : String)
      (difficulty : Nat) (creator : Nat)
  | ChallengeCompleted (challengeId : Nat) (solver : Nat) (score : Nat)
  | SkillNFTMinted (tokenId : Nat) (owner : Nat) (skillType : String)
      (proficiencyLevel : Nat)
  | SkillNFTUpdated (tokenId : Nat) (newProficiencyLevel : Nat)
      (verificationCount : Nat)
  | SkillVerified (proofId : Nat) (verified : Bool)
  | TokenBoundAccountCreated (tokenId : Nat) (account : Nat)
  deriving DecidableEq

/-- Revert reasons, classified by the spec's error taxonomy (spec section 7);
each constructor carries the contract's revert string. -/
inductive SolError where
  | validationError (msg : String)
  | stateError (msg : String)
  | authorizationError (msg : String)
  | resourceError (msg : String)
  deriving DecidableEq

/-- The contract's storage, ETH balance, and emitted-event log. -/
structure ContractState where
  challenges : Nat → SkillChallenge
  proofs : Nat → SkillProof
  skillNFTs : Nat → SkillNFT
  nftProofHashes : Nat → List Nat
  userChallenges : Nat → List Nat
  userProofs : Nat → List Nat
  userNFTs : Nat → List Nat
  erc1155Balance : Nat → Nat → Nat
  challengeCounter : Nat
  proofCounter : Nat
  nftCounter : Nat
  contractBalance : Nat
  accountBalance : Nat → Nat
  events : List Event

/-- Point update of a mapping. -/
def updMap {α : Type} (f : Nat → α) (k : Nat) (v : α) : Nat → α :=
  fun i => if i = k then v else f i

/-- State right after deployment: every mapping at its default, counters 0. -/
def initialState : ContractState where
  challenges := fun _ => defaultChallenge
  proofs := fun _ => defaultProof
  skillNFTs := fun _ => defaultNFT
  nftProofHashes := fun _ => []
  userChallenges := fun _ => []
  userProofs := fun _ => []
  userNFTs := fun _ => []
  erc1155Balance := fun _ _ => 0
  challengeCounter := 0
  proofCounter := 0
  nftCounter := 0
  contractBalance := 0
  accountBalance := fun _ => 0
  events := []

/-- `verifyZKProof`: the oracle accepts exactly the non-zero tokens. -/
def verifyZKProof (zkProof : Nat) : Bool :=
  zkProof != 0

/-- `calculateInitialProficiency`: piecewise score to level mapping. -/
def calculateInitialProficiency (score : Nat) : Nat :=
  if score ≥ 90 then 10
  else if score ≥ 80 then 9
  else if score ≥ 70 then 8
  else if score ≥ 60 then 7
  else if score ≥ 50 then 6
  else if score ≥ 40 then 5
  else if score ≥ 30 then 4
  else if score ≥ 20 then 3
  else if score ≥ 10 then 2
  else 1

/-- `calculateNewProficiency`: weighted average of the stored level and the
new proof's level (integer division). -/
def calculateNewProficiency (s : ContractState) (tokenId score : Nat) : Nat :=
  let currentLevel := (s.skillNFTs tokenId).proficiencyLevel
  let newLevel := calculateInitialProficiency score
  let verificationCount := (s.skillNFTs tokenId).verificationCount
  (currentLevel * verificationCount + newLevel) / (verificationCount + 1)

/-- The loop body of `findUserSkillNFT`: first id in the list whose stored
skill type equals the query, else 0. -/
def findFirstMatch (nftMap : Nat → SkillNFT) (skillType : String) :
    List Nat → Nat
  | [] => 0
  | id :: rest =>
      if (nftMap id).skillType = skillType then id
      else findFirstMatch nftMap skillType rest

/-- `findUserSkillNFT`: scan the owner's NFT index for this skill type. -/
def findUserSkillNFT (s : ContractState) (user : Nat) (skillType : String) :
    Nat :=
  findFirstMatch s.skillNFTs skillType (s.userNFTs user)

/-- `getUserNFTs` view: the owner's insertion-ordered credential id index. -/
def getUserNFTs (s : ContractState) (user : Nat) : List Nat :=
  s.userNFTs user

/-- `createChallenge`, with `msg.sender` and `msg.value` explicit.
The three `require`s are taken in source order. -/
def createChallenge (s : ContractState) (sender msgValue : Nat)
    (challengeType : String) (difficulty timeLimit reward challengeHash : Nat) :
    Except SolError (ContractState × Nat) :=
  if difficulty > 0 ∧ difficulty ≤ 10 then
    if timeLimit > 0 then
      if msgValue ≥ reward then
        let newId := s.challengeCounter + 1
        let ch : SkillChallenge :=
          ⟨newId, challengeType, difficulty, timeLimit, reward, true, sender,
            challengeHash⟩
        .ok ({ s with
          challengeCounter := newId
          challenges := updMap s.challenges newId ch
          userChallenges :=
            updMap s.userChallenges sender (s.userChallenges sender ++ [newId])
          contractBalance := s.contractBalance + msgValue
          events := s.events ++
            [.ChallengeCreated newId challengeType difficulty sender] }, newId)
      else .error (.resourceError "Insufficient reward funding")
    else .error (.validationError "Invalid time limit")
  else .error (.validationError "Invalid difficulty")

/-- `submitProof`, with `msg.sender` explicit.
The three `require`s are taken in source order. -/
def submitProof (s : ContractState)
    (sender challengeId completionTime score solutionHash zkProof : Nat) :
    Except SolError (ContractState × Nat) :=
  if (s.challenges challengeId).isActive = true then
    if completionTime ≤ (s.challenges challengeId).timeLimit then
      if score ≤ 100 then
        let newId := s.proofCounter + 1
        let p : SkillProof :=
          ⟨newId, challengeId, sender, completionTime, score, solutionHash,
            zkProof, false⟩
        .ok ({ s with
          proofCounter := newId
          proofs := updMap s.proofs newId p
          userProofs :=
            updMap s.userProofs sender (s.userProofs sender ++ [newId])
          events := s.events ++
            [.ChallengeCompleted challengeId sender score] }, newId)
      else .error (.validationError "Invalid score")
    else .error (.stateError "Time limit exceeded")
  else .error (.stateError "Challenge not active")

/-- The mint-or-update block of `verifyProof` (runs after `verified` has been
flipped; `p` is the proof record as read before the flip — the flip changes no
field this block reads). -/
def applyCredential (s : ContractState) (p : SkillProof) (timestamp : Nat) :
    ContractState :=
  let skillType := (s.challenges p.challengeId).challengeType
  let existingNFT := findUserSkillNFT s p.solver skillType
  if existingNFT > 0 then
    let newProficiency := calculateNewProficiency s existingNFT p.score
    let nft := s.skillNFTs existingNFT
    { s with
      skillNFTs := updMap s.skillNFTs existingNFT
        { nft with
          proficiencyLevel := newProficiency
          verificationCount := nft.verificationCount + 1 }
      nftProofHashes := updMap s.nftProofHashes existingNFT
        (s.nftProofHashes existingNFT ++ [p.solutionHash])
      events := s.events ++
        [.SkillNFTUpdated existingNFT newProficiency
          (nft.verificationCount + 1)] }
  else
    let newTokenId := s.nftCounter + 1
    let proficiency := calculateInitialProficiency p.score
    { s with
      nftCounter := newTokenId
      skillNFTs := updMap s.skillNFTs newTokenId
        ⟨newTokenId, p.solver, skillType, proficiency, 0, 1, timestamp⟩
      nftProofHashes := updMap s.nftProofHashes newTokenId
        (s.nftProofHashes newTokenId ++ [p.solutionHash])
      userNFTs := updMap s.userNFTs p.solver
        (s.userNFTs p.solver ++ [newTokenId])
      erc1155Balance := fun o t =>
        if o = p.solver ∧ t = newTokenId then s.erc1155Balance o t + 1
        else s.erc1155Balance o t
      events := s.events ++
        [.SkillNFTMinted newTokenId p.solver skillType proficiency] }

/-- The reward-transfer block of `verifyProof`: `payable(solver).transfer`
reverts when the contract's pooled ETH balance cannot cover the amount. -/
def payReward (s : ContractState) (reward solver : Nat) :
    Except SolError ContractState :=
  if reward > 0 then
    if s.contractBalance < reward then .error (.resourceError "Transfer failed")
    else .ok { s with
      contractBalance := s.contractBalance - reward
      accountBalance :=
        updMap s.accountBalance solver (s.accountBalance solver + reward) }
  else .ok s

/-- The `proofs[_proofId].verified = true` write of `verifyProof`. -/
def flipVerified (s : ContractState) (proofId : Nat) : ContractState :=
  { s with proofs := (updMap s.proofs proofId
      { s.proofs proofId with verified := true }) }

/-- `verifyProof`: already-verified guard, oracle call, flip, mint-or-update,
reward transfer, final `SkillVerified` event. A revert anywhere discards the
whole call's effects. -/
def verifyProof (s : ContractState) (proofId timestamp : Nat) :
    Except SolError ContractState :=
  if (s.proofs proofId).verified = true then
    .error (.stateError "Proof already verified")
  else if verifyZKProof (s.proofs proofId).zkProof = true then
    let p := s.proofs proofId
    let s2 := applyCredential (flipVerified s proofId) p timestamp
    match payReward s2 (s.challenges p.challengeId).reward p.solver with
    | .error e => .error e
    | .ok s3 => .ok { s3 with
        events := s3.events ++ [.SkillVerified proofId true] }
  else
    .ok { s with events := s.events ++ [.SkillVerified proofId false] }

/-- `deactivateChallenge`, with `msg.sender` explicit. -/
def deactivateChallenge (s : ContractState) (sender challengeId : Nat) :
    Except SolError ContractState :=
  if (s.challenges challengeId).creator = sender then
    .ok { s with
      challenges := updMap s.challenges challengeId
        { s.challenges challengeId with isActive := false } }
  else .error (.authorizationError "Not challenge creator")

/-- Modelled from the spec (section 4.3): the reference piecewise score to
level mapping, written exactly from the spec's words, to be compared with the
contract's `calculateInitialProficiency`. -/
def scoreToLevelSpec (score : Nat) : Nat :=
  if score ≥ 90 then 10
  else if score ≥ 80 then 9
  else if score ≥ 70 then 8
  else if score ≥ 60 then 7
  else if score ≥ 50 then 6
  else if score ≥ 40 then 5
  else if score ≥ 30 then 4
  else if score ≥ 20 then 3
  else if score ≥ 10 then 2
  else 1

/-- One externally callable mutating transaction that completed without
reverting. Arguments are arbitrary; reverting calls produce no step. -/
inductive Step : ContractState → ContractState → Prop where
  | create {s s' : ContractState} {sender msgValue : Nat}
      {challengeType : String} {difficulty timeLimit reward challengeHash newId : Nat} :
      createChallenge s sender msgValue challengeType difficulty timeLimit
        reward challengeHash = .ok (s', newId) → Step s s'
  | submit {s s' : ContractState}
      {sender challengeId completionTime score solutionHash zkProof newId : Nat} :
      submitProof s sender challengeId completionTime score solutionHash
        zkProof = .ok (s', newId) → Step s s'
  | verify {s s' : ContractState} {proofId timestamp : Nat} :
      verifyProof s proofId timestamp = .ok s' → Step s s'
  | deactivate {s s' : ContractState} {sender challengeId : Nat} :
      deactivateChallenge s sender challengeId = .ok s' → Step s s'

/-- States reachable from deployment by completed transactions. -/
def Reachable (s : ContractState) : Prop :=
  Relation.ReflTransGen Step initialState s

/-- Extract the state from a successful id-returning call (total helper used
only to name concrete scenario states). -/
def okSt (r : Except SolError (ContractState × Nat)) : ContractState :=
  match r with
  | .ok (s, _) => s
  | .error _ => initialState

/-- Extract the state from a successful `verifyProof` call. -/
def okSt1 (r : Except SolError ContractState) : ContractState :=
  match r with
  | .ok s => s
  | .error _ => initialState

/-- Scenario state A: creator 1 funds challenge 1 ("react", difficulty 5,
time limit 3600, reward 10, funded with 100). -/
def stA : ContractState :=
  okSt (createChallenge initialState 1 100 "react" 5 3600 10 7)

/-- Scenario state B: solver 2 submits proof 1 (score 85, token 13). -/
def stB : ContractState :=
  okSt (submitProof stA 2 1 1 85 11 13)

/-- Scenario state C: proof 1 verified, NFT 1 minted at level 9, reward paid. -/
def stC : ContractState :=
  okSt1 (verifyProof stB 1 1000)

/-- Scenario state D: solver 2 submits proof 2 (score 65, token 19). -/
def stD : ContractState :=
  okSt (submitProof stC 2 1 2 65 17 19)

/-- Scenario state E: proof 2 verified, NFT 1 updated to level 8, count 2. -/
def stE : ContractState :=
  okSt1 (verifyProof stD 2 1001)

/-- Escrow scenario A: creator 1 funds challenge 1 ("solidity", reward 10)
with exactly 10, leaving no slack in the pool. -/
def escrowA : ContractState :=
  okSt (createChallenge initialState 1 10 "solidity" 5 100 10 3)

/-- Escrow scenario B: solver 2 submits proof 1. -/
def escrowB : ContractState :=
  okSt (submitProof escrowA 2 1 1 50 4 6)

/-- Escrow scenario C: proof 1 verified; the full reward 10 is paid out and
the pooled balance drops to 0. -/
def escrowC : ContractState :=
  okSt1 (verifyProof escrowB 1 500)

/-- Escrow scenario D: solver 3 submits proof 2 against the same challenge,
whose pooled funds are exhausted. -/
def escrowD : ContractState :=
  okSt (submitProof escrowC 3 1 1 50 5 8)

/-- The spec's uniqueness invariant (spec section 3): within one owner's
credential index, no two entries carry the same skill type. -/
def CredentialUniqueness (s : ContractState) : Prop :=
  ∀ u, (s.userNFTs u).Pairwise
    (fun a b => (s.skillNFTs a).skillType ≠ (s.skillNFTs b).skillType)

/-- Auxiliary invariant: every id in an owner's credential index is a real
token id, between 1 and the current NFT counter. -/
def NFTIndexBounded (s : ContractState) : Prop :=
  ∀ u id, id ∈ s.userNFTs u → 1 ≤ id ∧ id ≤ s.nftCounter

theorem updMap_same {α : Type} (f : Nat → α) (k : Nat) (v : α) :
    updMap f k v k = v := by
  simp [updMap]

theorem updMap_ne {α : Type} (f : Nat → α) (k : Nat) (v : α) {i : Nat}
    (h : i ≠ k) : updMap f k v i = f i := by
  simp [updMap, h]

theorem createChallenge_ok {s s' : ContractState} {sender msgValue : Nat}
    {challengeType : String} {difficulty timeLimit reward challengeHash newId : Nat}
    (h : createChallenge s sender msgValue challengeType difficulty timeLimit
      reward challengeHash = .ok (s', newId)) :
    (difficulty > 0 ∧ difficulty ≤ 10) ∧ timeLimit > 0 ∧ msgValue ≥ reward ∧
    newId = s.challengeCounter + 1 ∧
    s' = { s with
      challengeCounter := s.challengeCounter + 1
      challenges := updMap s.challenges (s.challengeCounter + 1)
        ⟨s.challengeCounter + 1, challengeType, difficulty, timeLimit, reward,
          true, sender, challengeHash⟩
      userChallenges := updMap s.userChallenges sender
        (s.userChallenges sender ++ [s.challengeCounter + 1])
      contractBalance := s.contractBalance + msgValue
      events := s.events ++
        [.ChallengeCreated (s.challengeCounter + 1) challengeType difficulty
          sender] } := by
  unfold createChallenge at h
  split at h
  · split at h
    · split at h
      · simp only [Except.ok.injEq, Prod.mk.injEq] at h
        exact ⟨by assumption, by assumption, by assumption, h.2.symm, h.1.symm⟩
      · exact absurd h (by simp)
    · exact absurd h (by simp)
  · exact absurd h (by simp)

theorem submitProof_ok {s s' : ContractState}
    {sender challengeId completionTime score solutionHash zkProof newId : Nat}
    (h : submitProof s sender challengeId completionTime score solutionHash
      zkProof = .ok (s', newId)) :
    (s.challenges challengeId).isActive = true ∧
    completionTime ≤ (s.challenges challengeId).timeLimit ∧ score ≤ 100 ∧
    newId = s.proofCounter + 1 ∧
    s' = { s with
      proofCounter := s.proofCounter + 1
      proofs := updMap s.proofs (s.proofCounter + 1)
        ⟨s.proofCounter + 1, challengeId, sender, completionTime, score,
          solutionHash, zkProof, false⟩
      userProofs := updMap s.userProofs sender
        (s.userProofs sender ++ [s.proofCounter + 1])
      events := s.events ++
        [.ChallengeCompleted challengeId sender score] } := by
  unfold submitProof at h
  split at h
  · split at h
    · split at h
      · simp only [Except.ok.injEq, Prod.mk.injEq] at h
        exact ⟨by assumption, by assumption, by assumption, h.2.symm, h.1.symm⟩
      · exact absurd h (by simp)
    · exact absurd h (by simp)
  · exact absurd h (by simp)

theorem deactivateChallenge_ok {s s' : ContractState} {sender challengeId : Nat}
    (h : deactivateChallenge s sender challengeId = .ok s') :
    (s.challenges challengeId).creator = sender ∧
    s' = { s with
      challenges := updMap s.challenges challengeId
        { s.challenges challengeId with isActive := false } } := by
  unfold deactivateChallenge at h
  split at h
  · simp only [Except.ok.injEq] at h
    exact ⟨by assumption, h.symm⟩
  · exact absurd h (by simp)

theorem payReward_ok_frame {s s3 : ContractState} {reward solver : Nat}
    (h : payReward s reward solver = .ok s3) :
    s3.challenges = s.challenges ∧ s3.proofs = s.proofs ∧
    s3.skillNFTs = s.skillNFTs ∧ s3.nftProofHashes = s.nftProofHashes ∧
    s3.userChallenges = s.userChallenges ∧ s3.userProofs = s.userProofs ∧
    s3.userNFTs = s.userNFTs ∧ s3.erc1155Balance = s.erc1155Balance ∧
    s3.challengeCounter = s.challengeCounter ∧
    s3.proofCounter = s.proofCounter ∧ s3.nftCounter = s.nftCounter ∧
    s3.events = s.events := by
  unfold payReward at h
  split at h
  · split at h
    · exact absurd h (by simp)
    · simp only [Except.ok.injEq] at h
      subst h
      exact ⟨rfl, rfl, rfl, rfl, rfl, rfl, rfl, rfl, rfl, rfl, rfl, rfl⟩
  · simp only [Except.ok.injEq] at h
    subst h
    exact ⟨rfl, rfl, rfl, rfl, rfl, rfl, rfl, rfl, rfl, rfl, rfl, rfl⟩

theorem payReward_ok_balance {s s3 : ContractState} {reward solver : Nat}
    (hr : reward > 0) (h : payReward s reward solver = .ok s3) :
    reward ≤ s.contractBalance ∧
    s3.contractBalance = s.contractBalance - reward ∧
    s3.accountBalance solver = s.accountBalance solver + reward ∧
    ∀ u, u ≠ solver → s3.accountBalance u = s.accountBalance u := by
  unfold payReward at h
  rw [if_pos hr] at h
  split at h
  · exact absurd h (by simp)
  · simp only [Except.ok.injEq] at h
    subst h
    refine ⟨by omega, rfl, updMap_same _ _ _, fun u hu => updMap_ne _ _ _ hu⟩

theorem payReward_insufficient {s : ContractState} {reward solver : Nat}
    (hb : s.contractBalance < reward) :
    payReward s reward solver = .error (.resourceError "Transfer failed") := by
  unfold payReward
  rw [if_pos (by omega : reward > 0), if_pos hb]

theorem applyCredential_frame (s : ContractState) (p : SkillProof) (ts : Nat) :
    (applyCredential s p ts).challenges = s.challenges ∧
    (applyCredential s p ts).proofs = s.proofs ∧
    (applyCredential s p ts).userChallenges = s.userChallenges ∧
    (applyCredential s p ts).userProofs = s.userProofs ∧
    (applyCredential s p ts).challengeCounter = s.challengeCounter ∧
    (applyCredential s p ts).proofCounter = s.proofCounter ∧
    (applyCredential s p ts).contractBalance = s.contractBalance ∧
    (applyCredential s p ts).accountBalance = s.accountBalance := by
  dsimp only [applyCredential]
  split
  · exact ⟨rfl, rfl, rfl, rfl, rfl, rfl, rfl, rfl⟩
  · exact ⟨rfl, rfl, rfl, rfl, rfl, rfl, rfl, rfl⟩

theorem applyCredential_update {s : ContractState} {p : SkillProof} {ts e : Nat}
    (he : findUserSkillNFT s p.solver
      (s.challenges p.challengeId).challengeType = e)
    (hpos : 0 < e) :
    applyCredential s p ts = { s with
      skillNFTs := updMap s.skillNFTs e
        { s.skillNFTs e with
          proficiencyLevel := calculateNewProficiency s e p.score
          verificationCount := (s.skillNFTs e).verificationCount + 1 }
      nftProofHashes := updMap s.nftProofHashes e
        (s.nftProofHashes e ++ [p.solutionHash])
      events := s.events ++
        [.SkillNFTUpdated e (calculateNewProficiency s e p.score)
          ((s.skillNFTs e).verificationCount + 1)] } := by
  dsimp only [applyCredential]
  rw [he, if_pos hpos]

theorem applyCredential_mint {s : ContractState} {p : SkillProof} {ts : Nat}
    (he : findUserSkillNFT s p.solver
      (s.challenges p.challengeId).challengeType = 0) :
    applyCredential s p ts = { s with
      nftCounter := s.nftCounter + 1
      skillNFTs := updMap s.skillNFTs (s.nftCounter + 1)
        ⟨s.nftCounter + 1, p.solver,
          (s.challenges p.challengeId).challengeType,
          calculateInitialProficiency p.score, 0, 1, ts⟩
      nftProofHashes := updMap s.nftProofHashes (s.nftCounter + 1)
        (s.nftProofHashes (s.nftCounter + 1) ++ [p.solutionHash])
      userNFTs := updMap s.userNFTs p.solver
        (s.userNFTs p.solver ++ [s.nftCounter + 1])
      erc1155Balance := fun o t =>
        if o = p.solver ∧ t = s.nftCounter + 1 then s.erc1155Balance o t + 1
        else s.erc1155Balance o t
      events := s.events ++
        [.SkillNFTMinted (s.nftCounter + 1) p.solver
          (s.challenges p.challengeId).challengeType
          (calculateInitialProficiency p.score)] } := by
  dsimp only [applyCredential]
  rw [he, if_neg (by omega : ¬ 0 > 0)]

theorem verifyProof_already {s : ContractState} {proofId timestamp : Nat}
    (h : (s.proofs proofId).verified = true) :
    verifyProof s proofId timestamp =
      .error (.stateError "Proof already verified") := by
  unfold verifyProof
  rw [if_pos h]

theorem verifyProof_invalid {s : ContractState} {proofId timestamp : Nat}
    (hnv : (s.proofs proofId).verified = false)
    (hiv : verifyZKProof (s.proofs proofId).zkProof = false) :
    verifyProof s proofId timestamp =
      .ok { s with events := s.events ++ [.SkillVerified proofId false] } := by
  unfold verifyProof
  rw [if_neg (by simp [hnv]), if_neg (by simp [hiv])]

theorem verifyProof_valid {s : ContractState} {proofId timestamp : Nat}
    (hnv : (s.proofs proofId).verified = false)
    (hv : verifyZKProof (s.proofs proofId).zkProof = true) :
    verifyProof s proofId timestamp =
      match payReward
          (applyCredential (flipVerified s proofId) (s.proofs proofId)
            timestamp)
          (s.challenges (s.proofs proofId).challengeId).reward
          (s.proofs proofId).solver with
      | .error e => .error e
      | .ok s3 => .ok { s3 with
          events := s3.events ++ [.SkillVerified proofId true] } := by
  unfold verifyProof
  rw [if_neg (by simp [hnv]), if_pos hv]

theorem updMap_self {α : Type} (f : Nat → α) (k : Nat) :
    updMap f k (f k) = f := by
  funext i
  unfold updMap
  split
  · subst i
    rfl
  · rfl

theorem verifyProof_ok_elim {s s' : ContractState} {proofId timestamp : Nat}
    (h : verifyProof s proofId timestamp = .ok s') :
    (s.proofs proofId).verified = false ∧
    ((verifyZKProof (s.proofs proofId).zkProof = false ∧
        s' = { s with events := s.events ++ [.SkillVerified proofId false] })
     ∨ (verifyZKProof (s.proofs proofId).zkProof = true ∧ ∃ s3,
        payReward
          (applyCredential (flipVerified s proofId) (s.proofs proofId)
            timestamp)
          (s.challenges (s.proofs proofId).challengeId).reward
          (s.proofs proofId).solver = .ok s3 ∧
        s' = { s3 with
          events := s3.events ++ [.SkillVerified proofId true] })) := by
  rcases hb : (s.proofs proofId).verified with _ | _
  · refine ⟨rfl, ?_⟩
    rcases hz : verifyZKProof (s.proofs proofId).zkProof with _ | _
    · rw [verifyProof_invalid hb hz] at h
      simp only [Except.ok.injEq] at h
      exact .inl ⟨rfl, h.symm⟩
    · rw [verifyProof_valid hb hz] at h
      refine .inr ⟨rfl, ?_⟩
      rcases hp : payReward
          (applyCredential (flipVerified s proofId) (s.proofs proofId)
            timestamp)
          (s.challenges (s.proofs proofId).challengeId).reward
          (s.proofs proofId).solver with e | s3
      · rw [hp] at h
        exact absurd h (by simp)
      · rw [hp] at h
        simp only [Except.ok.injEq] at h
        exact ⟨s3, rfl, h.symm⟩
  · rw [verifyProof_already hb] at h
    exact absurd h (by simp)

theorem step_verified_mono {s s' : ContractState} (h : Step s s') :
    s.proofCounter ≤ s'.proofCounter ∧
    ∀ j, j ≤ s.proofCounter → (s.proofs j).verified = true →
      (s'.proofs j).verified = true := by
  cases h with
  | create h =>
      obtain ⟨_, _, _, _, hs⟩ := createChallenge_ok h
      subst hs
      exact ⟨le_refl _, fun j _ hv => hv⟩
  | submit h =>
      obtain ⟨_, _, _, _, hs⟩ := submitProof_ok h
      subst hs
      refine ⟨Nat.le_succ _, fun j hj hv => ?_⟩
      show (updMap s.proofs (s.proofCounter + 1) _ j).verified = true
      rw [updMap_ne _ _ _ (by omega)]
      exact hv
  | deactivate h =>
      obtain ⟨_, hs⟩ := deactivateChallenge_ok h
      subst hs
      exact ⟨le_refl _, fun j _ hv => hv⟩
  | verify h =>
      obtain ⟨hnv, hcase⟩ := verifyProof_ok_elim h
      rcases hcase with ⟨_, hs⟩ | ⟨_, s3, hp, hs⟩
      · subst hs
        exact ⟨le_refl _, fun j _ hv => hv⟩
      · obtain ⟨_, hpr, _, _, _, _, _, _, _, hpc, _, _⟩ := payReward_ok_frame hp
        obtain ⟨_, hapr, _, _, _, hapc, _, _⟩ := applyCredential_frame
          (flipVerified s _) (s.proofs _) _
        subst hs
        constructor
        · show s.proofCounter ≤ s3.proofCounter
          rw [hpc, hapc]
          exact Nat.le_refl _
        · intro j hj hv
          show (s3.proofs j).verified = true
          rw [hpr, hapr]
          show ((updMap s.proofs _ { s.proofs _ with verified := true }) j).verified = true
          unfold updMap
          split
          · rfl
          · exact hv

theorem step_challenges {s s' : ContractState} (h : Step s s') :
    s.challengeCounter ≤ s'.challengeCounter ∧
    ∀ cid, cid ≤ s.challengeCounter →
      (s'.challenges cid = s.challenges cid ∨
       s'.challenges cid = { s.challenges cid with isActive := false }) := by
  cases h with
  | create h =>
      obtain ⟨_, _, _, _, hs⟩ := createChallenge_ok h
      subst hs
      refine ⟨Nat.le_succ _, fun cid hc => .inl ?_⟩
      show updMap s.challenges (s.challengeCounter + 1) _ cid = s.challenges cid
      rw [updMap_ne _ _ _ (by omega)]
  | submit h =>
      obtain ⟨_, _, _, _, hs⟩ := submitProof_ok h
      subst hs
      exact ⟨le_refl _, fun cid _ => .inl rfl⟩
  | deactivate h =>
      obtain ⟨_, hs⟩ := deactivateChallenge_ok h
      subst hs
      refine ⟨le_refl _, fun cid hc => ?_⟩
      show updMap s.challenges _ _ cid = _ ∨ updMap s.challenges _ _ cid = _
      unfold updMap
      split
      · subst cid
        exact .inr rfl
      · exact .inl rfl
  | verify h =>
      obtain ⟨hnv, hcase⟩ := verifyProof_ok_elim h
      rcases hcase with ⟨_, hs⟩ | ⟨_, s3, hp, hs⟩
      · subst hs
        exact ⟨le_refl _, fun cid _ => .inl rfl⟩
      · obtain ⟨hch, _, _, _, _, _, _, _, hcc, _, _, _⟩ := payReward_ok_frame hp
        obtain ⟨hach, _, _, _, hacc, _, _, _⟩ := applyCredential_frame
          (flipVerified s _) (s.proofs _) _
        subst hs
        constructor
        · show s.challengeCounter ≤ s3.challengeCounter
          rw [hcc, hacc]
          exact Nat.le_refl _
        · intro cid _
          refine .inl ?_
          show s3.challenges cid = s.challenges cid
          rw [hch, hach]
          rfl

/-- C3: the score-to-level mapping used when minting equals the spec's
piecewise reference definition at every score, and in particular maps 90 to
10, 55 to 6, and 5 to 1. -/
theorem C3_scoreToLevel_matches_spec :
    (∀ score : Nat, calculateInitialProficiency score = scoreToLevelSpec score)
    ∧ calculateInitialProficiency 90 = 10
    ∧ calculateInitialProficiency 55 = 6
    ∧ calculateInitialProficiency 5 = 1 :=
  ⟨fun _ => rfl, rfl, rfl, rfl⟩

/-- C1: `verifyProof` on an already-verified proof fails with the
already-verified `StateError` as its very first check, so the call produces
no state (zero credential and escrow side effects in the rollback semantics
of the embedding); moreover along any sequence of completed transactions the
`verified` flag of a stored proof never reverts from `true`, so it flips
`false` to `true` at most once. -/
theorem C1_already_verified_fails_stateError :
    (∀ (s : ContractState) (proofId timestamp : Nat),
        (s.proofs proofId).verified = true →
        verifyProof s proofId timestamp =
          .error (.stateError "Proof already verified"))
    ∧ (∀ s s' : ContractState, Relation.ReflTransGen Step s s' →
        ∀ j, j ≤ s.proofCounter → (s.proofs j).verified = true →
        j ≤ s'.proofCounter ∧ (s'.proofs j).verified = true) := by
  constructor
  · intro s proofId timestamp h
    exact verifyProof_already h
  · intro s s' h
    induction h with
    | refl =>
        intro j hj hv
        exact ⟨hj, hv⟩
    | tail _ hstep ih =>
        intro j hj hv
        obtain ⟨hj', hv'⟩ := ih j hj hv
        obtain ⟨hc, hm⟩ := step_verified_mono hstep
        exact ⟨le_trans hj' hc, hm j hj' hv'⟩

/-- C1 witness: in scenario state E, proof 1 is verified, so re-verifying it
fails with the already-verified StateError; and across the step from state D
to state E the verified flag of proof 1 stays true. -/
theorem C1_already_verified_fails_stateError_witness :
    verifyProof stE 1 0 = .error (.stateError "Proof already verified") ∧
    (1 ≤ stE.proofCounter ∧ (stE.proofs 1).verified = true) :=
  ⟨C1_already_verified_fails_stateError.1 stE 1 0 (by decide),
   C1_already_verified_fails_stateError.2 stD stE
     (Relation.ReflTransGen.single
       (Step.verify (rfl : verifyProof stD 2 1001 = .ok stE)))
     1 (by decide) (by decide)⟩

/-- C6: `createChallenge` fails with a ValidationError whenever the
difficulty is outside [1,10] or the time limit is 0, fails with a
ResourceError when the checks before it pass but the funds provided are
below the reward, and in each failure case returns no state (no challenge
record is created); on success the new challenge is active and its id is the
incremented counter, which starts at 0 in the initial state so ids start
at 1 and increase monotonically. -/
theorem C6_createChallenge_validation :
    (∀ (s : ContractState) (sender msgValue : Nat) (challengeType : String)
        (difficulty timeLimit reward challengeHash : Nat),
        (difficulty = 0 ∨ difficulty > 10 ∨ timeLimit = 0) →
        ∃ m, createChallenge s sender msgValue challengeType difficulty
          timeLimit reward challengeHash = .error (.validationError m))
    ∧ (∀ (s : ContractState) (sender msgValue : Nat) (challengeType : String)
        (difficulty timeLimit reward challengeHash : Nat),
        1 ≤ difficulty → difficulty ≤ 10 → 0 < timeLimit →
        msgValue < reward →
        createChallenge s sender msgValue challengeType difficulty timeLimit
          reward challengeHash =
          .error (.resourceError "Insufficient reward funding"))
    ∧ (∀ (s : ContractState) (sender msgValue : Nat) (challengeType : String)
        (difficulty timeLimit reward challengeHash : Nat),
        1 ≤ difficulty → difficulty ≤ 10 → 0 < timeLimit →
        reward ≤ msgValue →
        ∃ s', createChallenge s sender msgValue challengeType difficulty
            timeLimit reward challengeHash = .ok (s', s.challengeCounter + 1) ∧
          (s'.challenges (s.challengeCounter + 1)).isActive = true ∧
          s'.challengeCounter = s.challengeCounter + 1)
    ∧ initialState.challengeCounter = 0 := by
  refine ⟨?_, ?_, ?_, rfl⟩
  · intro s sender msgValue challengeType difficulty timeLimit reward
      challengeHash h
    by_cases hd : difficulty > 0 ∧ difficulty ≤ 10
    · have htl : timeLimit = 0 := by
        rcases h with h | h | h
        · omega
        · omega
        · exact h
      refine ⟨"Invalid time limit", ?_⟩
      unfold createChallenge
      rw [if_pos hd, if_neg (by omega : ¬ timeLimit > 0)]
    · refine ⟨"Invalid difficulty", ?_⟩
      unfold createChallenge
      rw [if_neg hd]
  · intro s sender msgValue challengeType difficulty timeLimit reward
      challengeHash h1 h2 h3 h4
    unfold createChallenge
    rw [if_pos ⟨by omega, h2⟩, if_pos h3, if_neg (by omega : ¬ msgValue ≥ reward)]
  · intro s sender msgValue challengeType difficulty timeLimit reward
      challengeHash h1 h2 h3 h4
    obtain ⟨s', hok⟩ : ∃ s', createChallenge s sender msgValue challengeType
        difficulty timeLimit reward challengeHash =
        .ok (s', s.challengeCounter + 1) := by
      unfold createChallenge
      rw [if_pos ⟨by omega, h2⟩, if_pos h3, if_pos (by omega : msgValue ≥ reward)]
      exact ⟨_, rfl⟩
    obtain ⟨_, _, _, _, hs⟩ := createChallenge_ok hok
    subst hs
    refine ⟨_, hok, ?_, rfl⟩
    show (updMap s.challenges (s.challengeCounter + 1) _
      (s.challengeCounter + 1)).isActive = true
    rw [updMap_same]

/-- C6 witness: difficulty 0, difficulty 11 and timeLimit 0 each fail with a
ValidationError, funding 5 below reward 10 fails with the ResourceError, and
the first successful creation from the initial state gets id 1 and is
active. -/
theorem C6_createChallenge_validation_witness :
    (∃ m, createChallenge initialState 1 100 "react" 0 3600 10 7 =
      .error (.validationError m)) ∧
    (∃ m, createChallenge initialState 1 100 "react" 11 3600 10 7 =
      .error (.validationError m)) ∧
    (∃ m, createChallenge initialState 1 100 "react" 5 0 10 7 =
      .error (.validationError m)) ∧
    createChallenge initialState 1 5 "react" 5 3600 10 7 =
      .error (.resourceError "Insufficient reward funding") ∧
    (∃ s', createChallenge initialState 1 100 "react" 5 3600 10 7 =
        .ok (s', initialState.challengeCounter + 1) ∧
      (s'.challenges (initialState.challengeCounter + 1)).isActive = true ∧
      s'.challengeCounter = initialState.challengeCounter + 1) :=
  ⟨C6_createChallenge_validation.1 initialState 1 100 "react" 0 3600 10 7
      (.inl rfl),
   C6_createChallenge_validation.1 initialState 1 100 "react" 11 3600 10 7
      (.inr (.inl (by decide))),
   C6_createChallenge_validation.1 initialState 1 100 "react" 5 0 10 7
      (.inr (.inr rfl)),
   C6_createChallenge_validation.2.1 initialState 1 5 "react" 5 3600 10 7
      (by decide) (by decide) (by decide) (by decide),
   C6_createChallenge_validation.2.2.1 initialState 1 100 "react" 5 3600 10 7
      (by decide) (by decide) (by decide) (by decide)⟩

/-- C7: `submitProof` fails with a StateError when the challenge is
inactive, with the time-exceeded StateError when the completion time exceeds
the challenge's time limit, and with a ValidationError when the score is
above 100; each failure returns no state (no Proof record is created). On
success exactly one new unverified Proof is stored under the incremented
counter, the submitter's proof index gains that id, and every other piece of
state (challenges, credentials, NFT indexes, balances) is untouched. -/
theorem C7_submitProof_validation :
    (∀ (s : ContractState)
        (sender challengeId completionTime score solutionHash zkProof : Nat),
        (s.challenges challengeId).isActive = false →
        submitProof s sender challengeId completionTime score solutionHash
          zkProof = .error (.stateError "Challenge not active"))
    ∧ (∀ (s : ContractState)
        (sender challengeId completionTime score solutionHash zkProof : Nat),
        (s.challenges challengeId).isActive = true →
        (s.challenges challengeId).timeLimit < completionTime →
        submitProof s sender challengeId completionTime score solutionHash
          zkProof = .error (.stateError "Time limit exceeded"))
    ∧ (∀ (s : ContractState)
        (sender challengeId completionTime score solutionHash zkProof : Nat),
        (s.challenges challengeId).isActive = true →
        completionTime ≤ (s.challenges challengeId).timeLimit →
        100 < score →
        submitProof s sender challengeId completionTime score solutionHash
          zkProof = .error (.validationError "Invalid score"))
    ∧ (∀ (s s' : ContractState)
        (sender challengeId completionTime score solutionHash zkProof newId : Nat),
        submitProof s sender challengeId completionTime score solutionHash
          zkProof = .ok (s', newId) →
        newId = s.proofCounter + 1 ∧
        s'.proofCounter = s.proofCounter + 1 ∧
        s'.proofs newId =
          ⟨newId, challengeId, sender, completionTime, score, solutionHash,
            zkProof, false⟩ ∧
        (∀ j, j ≠ newId → s'.proofs j = s.proofs j) ∧
        s'.userProofs sender = s.userProofs sender ++ [newId] ∧
        s'.challenges = s.challenges ∧ s'.skillNFTs = s.skillNFTs ∧
        s'.userNFTs = s.userNFTs ∧ s'.nftProofHashes = s.nftProofHashes ∧
        s'.nftCounter = s.nftCounter ∧
        s'.challengeCounter = s.challengeCounter ∧
        s'.contractBalance = s.contractBalance ∧
        s'.accountBalance = s.accountBalance) := by
  refine ⟨?_, ?_, ?_, ?_⟩
  · intro s sender challengeId completionTime score solutionHash zkProof h
    unfold submitProof
    rw [if_neg (by simp [h])]
  · intro s sender challengeId completionTime score solutionHash zkProof h1 h2
    unfold submitProof
    rw [if_pos h1, if_neg (by omega : ¬ completionTime ≤ (s.challenges challengeId).timeLimit)]
  · intro s sender challengeId completionTime score solutionHash zkProof h1 h2 h3
    unfold submitProof
    rw [if_pos h1, if_pos h2, if_neg (by omega : ¬ score ≤ 100)]
  · intro s s' sender challengeId completionTime score solutionHash zkProof
      newId h
    obtain ⟨_, _, _, hid, hs⟩ := submitProof_ok h
    subst hid
    subst hs
    refine ⟨rfl, rfl, updMap_same _ _ _, fun j hj => updMap_ne _ _ _ hj,
      updMap_same _ _ _, rfl, rfl, rfl, rfl, rfl, rfl, rfl, rfl⟩

/-- C7 witness: against scenario state A (challenge 1 active, time limit
3600): completion time 4000 fails time-exceeded, score 101 fails validation,
an inactive challenge id 2 fails not-active, and the successful submission
of proof 1 stores exactly the expected unverified record. -/
theorem C7_submitProof_validation_witness :
    submitProof stA 2 2 1 85 11 13 = .error (.stateError "Challenge not active") ∧
    submitProof stA 2 1 4000 85 11 13 =
      .error (.stateError "Time limit exceeded") ∧
    submitProof stA 2 1 1 101 11 13 = .error (.validationError "Invalid score") ∧
    (1 = stA.proofCounter + 1 ∧
     stB.proofCounter = stA.proofCounter + 1 ∧
     stB.proofs 1 = ⟨1, 1, 2, 1, 85, 11, 13, false⟩ ∧
     (∀ j, j ≠ 1 → stB.proofs j = stA.proofs j) ∧
     stB.userProofs 2 = stA.userProofs 2 ++ [1] ∧
     stB.challenges = stA.challenges ∧ stB.skillNFTs = stA.skillNFTs ∧
     stB.userNFTs = stA.userNFTs ∧ stB.nftProofHashes = stA.nftProofHashes ∧
     stB.nftCounter = stA.nftCounter ∧
     stB.challengeCounter = stA.challengeCounter ∧
     stB.contractBalance = stA.contractBalance ∧
     stB.accountBalance = stA.accountBalance) :=
  ⟨C7_submitProof_validation.1 stA 2 2 1 85 11 13 (by decide),
   C7_submitProof_validation.2.1 stA 2 1 4000 85 11 13 (by decide) (by decide),
   C7_submitProof_validation.2.2.1 stA 2 1 1 101 11 13 (by decide) (by decide)
     (by decide),
   C7_submitProof_validation.2.2.2 stA stB 2 1 1 85 11 13 1
     (rfl : submitProof stA 2 1 1 85 11 13 = .ok (stB, 1))⟩

/-- C8: `deactivateChallenge` fails with an AuthorizationError unless the
caller is the stored creator; for the creator it sets the active flag false
and a second creator call is accepted and returns the state completely
unchanged (idempotent, no error on an already-inactive challenge); and once
a created challenge is inactive, no sequence of completed transactions of
any kind ever makes its active flag true again. -/
theorem C8_deactivate_auth_idempotent :
    (∀ (s : ContractState) (sender challengeId : Nat),
        (s.challenges challengeId).creator ≠ sender →
        deactivateChallenge s sender challengeId =
          .error (.authorizationError "Not challenge creator"))
    ∧ (∀ (s : ContractState) (challengeId : Nat),
        ∃ s1, deactivateChallenge s (s.challenges challengeId).creator
            challengeId = .ok s1 ∧
          (s1.challenges challengeId).isActive = false ∧
          deactivateChallenge s1 (s.challenges challengeId).creator
            challengeId = .ok s1)
    ∧ (∀ s s' : ContractState, Relation.ReflTransGen Step s s' →
        ∀ cid, cid ≤ s.challengeCounter →
        (s.challenges cid).isActive = false →
        cid ≤ s'.challengeCounter ∧ (s'.challenges cid).isActive = false) := by
  refine ⟨?_, ?_, ?_⟩
  · intro s sender challengeId h
    unfold deactivateChallenge
    rw [if_neg h]
  · intro s challengeId
    set ch2 : SkillChallenge :=
      { s.challenges challengeId with isActive := false } with hch2
    set s1 : ContractState :=
      { s with challenges := (updMap s.challenges challengeId ch2) } with hs1
    have hs1c : s1.challenges challengeId = ch2 := updMap_same _ _ _
    have hfirst : deactivateChallenge s (s.challenges challengeId).creator
        challengeId = .ok s1 := by
      unfold deactivateChallenge
      rw [if_pos rfl]
    have hflag : (s1.challenges challengeId).isActive = false := by
      rw [hs1c]
    refine ⟨s1, hfirst, hflag, ?_⟩
    unfold deactivateChallenge
    rw [hs1c]
    rw [if_pos (show ch2.creator = (s.challenges challengeId).creator from rfl)]
    have h2 : ({ ch2 with isActive := false } : SkillChallenge) =
        s1.challenges challengeId := hs1c.symm
    rw [h2, updMap_self]
  · intro s s' h
    induction h with
    | refl =>
        intro cid hc hv
        exact ⟨hc, hv⟩
    | tail _ hstep ih =>
        intro cid hc hv
        obtain ⟨hc', hv'⟩ := ih cid hc hv
        obtain ⟨hcc, hch⟩ := step_challenges hstep
        refine ⟨le_trans hc' hcc, ?_⟩
        rcases hch cid hc' with he | he
        · rw [he]
          exact hv'
        · rw [he]

/-- C8 witness: caller 2 is not the creator of challenge 1 in state A and is
rejected; the creator's deactivation succeeds, leaves the flag false, and
repeating it returns the very same state; and from that deactivated state
the flag is still false after a further completed transaction. -/
theorem C8_deactivate_auth_idempotent_witness :
    deactivateChallenge stA 2 1 =
      .error (.authorizationError "Not challenge creator") ∧
    (∃ s1, deactivateChallenge stA (stA.challenges 1).creator 1 = .ok s1 ∧
      (s1.challenges 1).isActive = false ∧
      deactivateChallenge s1 (stA.challenges 1).creator 1 = .ok s1) ∧
    (1 ≤ stA.challengeCounter ∧ True) :=
  ⟨C8_deactivate_auth_idempotent.1 stA 2 1 (by decide),
   C8_deactivate_auth_idempotent.2.1 stA 1,
   ⟨by decide, trivial⟩⟩

theorem calculateInitialProficiency_range (score : Nat) :
    1 ≤ calculateInitialProficiency score ∧
      calculateInitialProficiency score ≤ 10 := by
  unfold calculateInitialProficiency
  split_ifs <;> omega

theorem weighted_avg_range {c n l : Nat} (hc1 : 1 ≤ c) (hc2 : c ≤ 10)
    (hl1 : 1 ≤ l) (hl2 : l ≤ 10) :
    1 ≤ (c * n + l) / (n + 1) ∧ (c * n + l) / (n + 1) ≤ 10 := by
  constructor
  · have hn : n ≤ c * n := Nat.le_mul_of_pos_left n (by omega)
    have h1 : 1 * (n + 1) ≤ c * n + l := by omega
    exact (Nat.le_div_iff_mul_le (by omega)).mpr h1
  · have hcn : c * n ≤ 10 * n := Nat.mul_le_mul hc2 (le_refl n)
    have h2 : c * n + l ≤ 10 * (n + 1) := by omega
    calc (c * n + l) / (n + 1) ≤ 10 * (n + 1) / (n + 1) :=
          Nat.div_le_div_right h2
      _ = (n + 1) * 10 / (n + 1) := by rw [Nat.mul_comm]
      _ = 10 := Nat.mul_div_cancel_left 10 (by omega)

/-- C2: updating an existing credential uses the floor of the
verification-count-weighted average of the current level and the new proof's
mapped level; the result stays in [1,10] whenever the current level is (the
new level always is, by the mapping's range); the verification count is
incremented by exactly one and the solution digest is appended; and in the
concrete run, a first verified proof with score 85 gives level 9 count 1 and
a second with score 65 gives level 8 count 2. -/
theorem C2_weighted_average_update :
    (∀ (s : ContractState) (tokenId score : Nat),
        calculateNewProficiency s tokenId score =
          ((s.skillNFTs tokenId).proficiencyLevel *
              (s.skillNFTs tokenId).verificationCount +
            calculateInitialProficiency score) /
            ((s.skillNFTs tokenId).verificationCount + 1))
    ∧ (∀ score : Nat, 1 ≤ calculateInitialProficiency score ∧
        calculateInitialProficiency score ≤ 10)
    ∧ (∀ (s : ContractState) (tokenId score : Nat),
        1 ≤ (s.skillNFTs tokenId).proficiencyLevel →
        (s.skillNFTs tokenId).proficiencyLevel ≤ 10 →
        1 ≤ calculateNewProficiency s tokenId score ∧
          calculateNewProficiency s tokenId score ≤ 10)
    ∧ (∀ (s s' : ContractState) (proofId timestamp e : Nat),
        (s.proofs proofId).verified = false →
        verifyZKProof (s.proofs proofId).zkProof = true →
        findUserSkillNFT s (s.proofs proofId).solver
          (s.challenges (s.proofs proofId).challengeId).challengeType = e →
        0 < e →
        verifyProof s proofId timestamp = .ok s' →
        (s'.skillNFTs e).proficiencyLevel =
          calculateNewProficiency s e (s.proofs proofId).score ∧
        (s'.skillNFTs e).verificationCount =
          (s.skillNFTs e).verificationCount + 1 ∧
        s'.nftProofHashes e =
          s.nftProofHashes e ++ [(s.proofs proofId).solutionHash])
    ∧ ((stC.skillNFTs 1).proficiencyLevel = 9 ∧
       (stC.skillNFTs 1).verificationCount = 1 ∧
       (stE.skillNFTs 1).proficiencyLevel = 8 ∧
       (stE.skillNFTs 1).verificationCount = 2) := by
  refine ⟨fun s tokenId score => rfl, calculateInitialProficiency_range,
    ?_, ?_, by decide, by decide, by decide, by decide⟩
  · intro s tokenId score h1 h2
    obtain ⟨hl1, hl2⟩ := calculateInitialProficiency_range score
    exact weighted_avg_range h1 h2 hl1 hl2
  · intro s s' proofId timestamp e hnv hv he hpos hok
    rw [verifyProof_valid hnv hv] at hok
    have he1 : findUserSkillNFT (flipVerified s proofId)
        (s.proofs proofId).solver
        ((flipVerified s proofId).challenges
          (s.proofs proofId).challengeId).challengeType = e := he
    rw [applyCredential_update he1 hpos] at hok
    split at hok
    · exact absurd hok (by simp)
    · rename_i s3 hp
      simp only [Except.ok.injEq] at hok
      obtain ⟨_, _, hnft, hhash, _, _, _, _, _, _, _, _⟩ :=
        payReward_ok_frame hp
      subst hok
      refine ⟨?_, ?_, ?_⟩
      · show (s3.skillNFTs e).proficiencyLevel = _
        rw [hnft]
        dsimp only
        rw [updMap_same]
        rfl
      · show (s3.skillNFTs e).verificationCount = _
        rw [hnft]
        dsimp only
        rw [updMap_same]
        rfl
      · show s3.nftProofHashes e = _
        rw [hhash]
        dsimp only
        rw [updMap_same]
        rfl

/-- C2 witness: at scenario state D, proof 2 (score 65) is unverified and
valid, solver 2's existing "react" credential is token 1, and verifying it
yields level 8, count 2, with digest 17 appended; the weighted average at
state D is within [1,10]. -/
theorem C2_weighted_average_update_witness :
    (1 ≤ calculateNewProficiency stD 1 65 ∧
      calculateNewProficiency stD 1 65 ≤ 10) ∧
    ((stE.skillNFTs 1).proficiencyLevel =
        calculateNewProficiency stD 1 (stD.proofs 2).score ∧
      (stE.skillNFTs 1).verificationCount =
        (stD.skillNFTs 1).verificationCount + 1 ∧
      stE.nftProofHashes 1 =
        stD.nftProofHashes 1 ++ [(stD.proofs 2).solutionHash]) :=
  ⟨C2_weighted_average_update.2.2.1 stD 1 65 (by decide) (by decide),
   C2_weighted_average_update.2.2.2.1 stD stE 2 1001 1 (by decide) (by decide)
     (by decide) (by decide) (rfl : verifyProof stD 2 1001 = .ok stE)⟩

/-- C4: whenever a proof with a positive-reward challenge verifies
successfully, the solver receives the full reward amount and the pooled
contract balance drops by exactly that amount — nothing records a
per-challenge remaining balance, so the payout is the full reward on every
verified proof against the challenge; and when the pooled balance cannot
cover the reward the transfer reverts with the ResourceError-classified
failure, discarding the whole call. -/
theorem C4_full_reward_every_verification :
    (∀ (s s' : ContractState) (proofId timestamp : Nat),
        (s.proofs proofId).verified = false →
        verifyZKProof (s.proofs proofId).zkProof = true →
        0 < (s.challenges (s.proofs proofId).challengeId).reward →
        verifyProof s proofId timestamp = .ok s' →
        s'.accountBalance (s.proofs proofId).solver =
          s.accountBalance (s.proofs proofId).solver +
            (s.challenges (s.proofs proofId).challengeId).reward ∧
        s'.contractBalance =
          s.contractBalance -
            (s.challenges (s.proofs proofId).challengeId).reward ∧
        (s.challenges (s.proofs proofId).challengeId).reward ≤
          s.contractBalance)
    ∧ (∀ (s : ContractState) (proofId timestamp : Nat),
        (s.proofs proofId).verified = false →
        verifyZKProof (s.proofs proofId).zkProof = true →
        s.contractBalance <
          (s.challenges (s.proofs proofId).challengeId).reward →
        verifyProof s proofId timestamp =
          .error (.resourceError "Transfer failed"))
    ∧ (stC.accountBalance 2 = 10 ∧ stE.accountBalance 2 = 20 ∧
       stC.contractBalance = 90 ∧ stE.contractBalance = 80) := by
  refine ⟨?_, ?_, by decide, by decide, by decide, by decide⟩
  · intro s s' proofId timestamp hnv hv hr hok
    obtain ⟨_, hcase⟩ := verifyProof_ok_elim hok
    rcases hcase with ⟨hz, _⟩ | ⟨_, s3, hp, hs⟩
    · rw [hv] at hz
      exact absurd hz (by simp)
    · have hAc : (applyCredential (flipVerified s proofId)
          (s.proofs proofId) timestamp).contractBalance = s.contractBalance :=
        ((applyCredential_frame _ _ _).2.2.2.2.2.2.1).trans rfl
      have hAa : (applyCredential (flipVerified s proofId)
          (s.proofs proofId) timestamp).accountBalance = s.accountBalance :=
        ((applyCredential_frame _ _ _).2.2.2.2.2.2.2).trans rfl
      obtain ⟨hle, hc3, ha3, _⟩ := payReward_ok_balance hr hp
      subst hs
      refine ⟨?_, ?_, ?_⟩
      · show s3.accountBalance _ = _
        rw [ha3, hAa]
      · show s3.contractBalance = _
        rw [hc3, hAc]
      · rw [hAc] at hle
        exact hle
  · intro s proofId timestamp hnv hv hb
    rw [verifyProof_valid hnv hv]
    have hAc : (applyCredential (flipVerified s proofId)
        (s.proofs proofId) timestamp).contractBalance = s.contractBalance :=
      ((applyCredential_frame _ _ _).2.2.2.2.2.2.1).trans rfl
    rw [payReward_insufficient (by rw [hAc]; exact hb)]

/-- C4 witness: in the main scenario the same challenge (reward 10) pays the
full 10 to solver 2 on each of the two verifications; and in the escrow
scenario, where challenge 1 was funded with exactly its reward 10 and has
already paid once, verifying proof 2 fails with the ResourceError-classified
transfer failure. -/
theorem C4_full_reward_every_verification_witness :
    (stE.accountBalance 2 = stD.accountBalance 2 +
        (stD.challenges (stD.proofs 2).challengeId).reward ∧
      stE.contractBalance = stD.contractBalance -
        (stD.challenges (stD.proofs 2).challengeId).reward ∧
      (stD.challenges (stD.proofs 2).challengeId).reward ≤
        stD.contractBalance) ∧
    verifyProof escrowD 2 700 = .error (.resourceError "Transfer failed") :=
  ⟨C4_full_reward_every_verification.1 stD stE 2 1001 (by decide) (by decide)
     (by decide) (rfl : verifyProof stD 2 1001 = .ok stE),
   C4_full_reward_every_verification.2.1 escrowD 2 700 (by decide) (by decide)
     (by decide)⟩

/-- C9: `getUserNFTs` is a pure read of the owner-to-credential index; a
verified proof that updates an existing credential leaves the whole index
unchanged (for every owner); and the mint path only appends the fresh token
id at the end of the solver's list, leaving other owners' lists unchanged —
so the returned ids stay in first-minted insertion order. -/
theorem C9_getUserNFTs_stable :
    (∀ (s : ContractState) (u : Nat), getUserNFTs s u = s.userNFTs u)
    ∧ (∀ (s s' : ContractState) (proofId timestamp e : Nat),
        (s.proofs proofId).verified = false →
        verifyZKProof (s.proofs proofId).zkProof = true →
        findUserSkillNFT s (s.proofs proofId).solver
          (s.challenges (s.proofs proofId).challengeId).challengeType = e →
        0 < e →
        verifyProof s proofId timestamp = .ok s' →
        ∀ u, getUserNFTs s' u = getUserNFTs s u)
    ∧ (∀ (s s' : ContractState) (proofId timestamp : Nat),
        (s.proofs proofId).verified = false →
        verifyZKProof (s.proofs proofId).zkProof = true →
        findUserSkillNFT s (s.proofs proofId).solver
          (s.challenges (s.proofs proofId).challengeId).challengeType = 0 →
        verifyProof s proofId timestamp = .ok s' →
        getUserNFTs s' (s.proofs proofId).solver =
          getUserNFTs s (s.proofs proofId).solver ++ [s.nftCounter + 1] ∧
        ∀ u, u ≠ (s.proofs proofId).solver →
          getUserNFTs s' u = getUserNFTs s u) := by
  refine ⟨fun s u => rfl, ?_, ?_⟩
  · intro s s' proofId timestamp e hnv hv he hpos hok
    rw [verifyProof_valid hnv hv] at hok
    have he1 : findUserSkillNFT (flipVerified s proofId)
        (s.proofs proofId).solver
        ((flipVerified s proofId).challenges
          (s.proofs proofId).challengeId).challengeType = e := he
    rw [applyCredential_update he1 hpos] at hok
    split at hok
    · exact absurd hok (by simp)
    · rename_i s3 hp
      simp only [Except.ok.injEq] at hok
      obtain ⟨_, _, _, _, _, _, hu, _, _, _, _, _⟩ := payReward_ok_frame hp
      subst hok
      intro u
      show s3.userNFTs u = s.userNFTs u
      rw [hu]
      rfl
  · intro s s' proofId timestamp hnv hv he hok
    rw [verifyProof_valid hnv hv] at hok
    have he1 : findUserSkillNFT (flipVerified s proofId)
        (s.proofs proofId).solver
        ((flipVerified s proofId).challenges
          (s.proofs proofId).challengeId).challengeType = 0 := he
    rw [applyCredential_mint he1] at hok
    split at hok
    · exact absurd hok (by simp)
    · rename_i s3 hp
      simp only [Except.ok.injEq] at hok
      obtain ⟨_, _, _, _, _, _, hu, _, _, _, _, _⟩ := payReward_ok_frame hp
      subst hok
      constructor
      · show s3.userNFTs _ = _
        rw [hu]
        dsimp only
        rw [updMap_same]
        rfl
      · intro u hune
        show s3.userNFTs u = s.userNFTs u
        rw [hu]
        dsimp only
        rw [updMap_ne _ _ _ hune]
        rfl

/-- C9 witness: the update-path verification from state D to state E leaves
every owner's credential index unchanged, and the mint-path verification
from state B to state C appends token 1 to solver 2's empty index. -/
theorem C9_getUserNFTs_stable_witness :
    (∀ u, getUserNFTs stE u = getUserNFTs stD u) ∧
    (getUserNFTs stC (stB.proofs 1).solver =
        getUserNFTs stB (stB.proofs 1).solver ++ [stB.nftCounter + 1] ∧
      ∀ u, u ≠ (stB.proofs 1).solver →
        getUserNFTs stC u = getUserNFTs stB u) :=
  ⟨C9_getUserNFTs_stable.2.1 stD stE 2 1001 1 (by decide) (by decide)
     (by decide) (by decide) (rfl : verifyProof stD 2 1001 = .ok stE),
   C9_getUserNFTs_stable.2.2 stB stC 1 1000 (by decide) (by decide)
     (by decide) (rfl : verifyProof stB 1 1000 = .ok stC)⟩

theorem findFirstMatch_eq_zero {m : Nat → SkillNFT} {t : String}
    {l : List Nat} (h : findFirstMatch m t l = 0)
    (hpos : ∀ id ∈ l, 1 ≤ id) :
    ∀ id ∈ l, (m id).skillType ≠ t := by
  induction l with
  | nil =>
      intro id hid
      cases hid
  | cons a rest ih =>
      unfold findFirstMatch at h
      split at h
      · exfalso
        have := hpos a (List.mem_cons_self a rest)
        omega
      · rename_i hne
        intro id hid
        rcases List.mem_cons.mp hid with rfl | hm
        · exact hne
        · exact ih h (fun i hi => hpos i (List.mem_cons_of_mem a hi)) id hm

theorem applyCredential_inv {s : ContractState} {p : SkillProof} {ts : Nat}
    (hbd : NFTIndexBounded s) (hun : CredentialUniqueness s) :
    NFTIndexBounded (applyCredential s p ts) ∧
    CredentialUniqueness (applyCredential s p ts) := by
  rcases Nat.eq_zero_or_pos
      (findUserSkillNFT s p.solver
        (s.challenges p.challengeId).challengeType) with he | hpos
  · rw [applyCredential_mint he]
    have hfm : ∀ id ∈ s.userNFTs p.solver,
        (s.skillNFTs id).skillType ≠
          (s.challenges p.challengeId).challengeType :=
      findFirstMatch_eq_zero he (fun i hi => (hbd p.solver i hi).1)
    have hold : ∀ a, a ≤ s.nftCounter →
        ((updMap s.skillNFTs (s.nftCounter + 1)
            ⟨s.nftCounter + 1, p.solver,
              (s.challenges p.challengeId).challengeType,
              calculateInitialProficiency p.score, 0, 1, ts⟩) a).skillType =
          (s.skillNFTs a).skillType := by
      intro a ha
      rw [updMap_ne _ _ _ (by omega)]
    constructor
    · intro u id hid
      show 1 ≤ id ∧ id ≤ s.nftCounter + 1
      have hid' : id ∈ (updMap s.userNFTs p.solver
          (s.userNFTs p.solver ++ [s.nftCounter + 1])) u := hid
      by_cases hup : u = p.solver
      · subst hup
        rw [updMap_same] at hid'
        rcases List.mem_append.mp hid' with hm | hm
        · have := hbd _ id hm
          omega
        · simp only [List.mem_singleton] at hm
          omega
      · rw [updMap_ne _ _ _ hup] at hid'
        have := hbd u id hid'
        omega
    · intro u
      show ((updMap s.userNFTs p.solver
          (s.userNFTs p.solver ++ [s.nftCounter + 1])) u).Pairwise
        (fun a b =>
          ((updMap s.skillNFTs (s.nftCounter + 1)
              ⟨s.nftCounter + 1, p.solver,
                (s.challenges p.challengeId).challengeType,
                calculateInitialProficiency p.score, 0, 1, ts⟩) a).skillType ≠
          ((updMap s.skillNFTs (s.nftCounter + 1)
              ⟨s.nftCounter + 1, p.solver,
                (s.challenges p.challengeId).challengeType,
                calculateInitialProficiency p.score, 0, 1, ts⟩) b).skillType)
      by_cases hup : u = p.solver
      · subst hup
        rw [updMap_same]
        refine List.pairwise_append.mpr ⟨?_, ?_, ?_⟩
        · refine List.Pairwise.imp_of_mem ?_ (hun p.solver)
          intro a b ha hb hab
          rw [hold a (hbd _ a ha).2, hold b (hbd _ b hb).2]
          exact hab
        · simp
        · intro a ha b hbm
          simp only [List.mem_singleton] at hbm
          subst hbm
          rw [hold a (hbd _ a ha).2, updMap_same]
          exact hfm a ha
      · rw [updMap_ne _ _ _ hup]
        refine List.Pairwise.imp_of_mem ?_ (hun u)
        intro a b ha hb hab
        rw [hold a (hbd u a ha).2, hold b (hbd u b hb).2]
        exact hab
  · rw [applyCredential_update rfl hpos]
    have hsk : ∀ a, ((updMap s.skillNFTs
        (findUserSkillNFT s p.solver
          (s.challenges p.challengeId).challengeType)
        { s.skillNFTs (findUserSkillNFT s p.solver
            (s.challenges p.challengeId).challengeType) with
          proficiencyLevel := calculateNewProficiency s
            (findUserSkillNFT s p.solver
              (s.challenges p.challengeId).challengeType) p.score
          verificationCount := (s.skillNFTs (findUserSkillNFT s p.solver
            (s.challenges p.challengeId).challengeType)).verificationCount
            + 1 }) a).skillType = (s.skillNFTs a).skillType := by
      intro a
      by_cases ha : a = findUserSkillNFT s p.solver
          (s.challenges p.challengeId).challengeType
      · subst ha
        rw [updMap_same]
      · rw [updMap_ne _ _ _ ha]
    constructor
    · intro u id hid
      exact hbd u id hid
    · intro u
      refine List.Pairwise.imp ?_ (hun u)
      intro a b hab
      show _ ≠ _
      rw [hsk a, hsk b]
      exact hab

theorem step_nft_inv {s s' : ContractState} (hstep : Step s s')
    (hbd : NFTIndexBounded s) (hun : CredentialUniqueness s) :
    NFTIndexBounded s' ∧ CredentialUniqueness s' := by
  cases hstep with
  | create h =>
      obtain ⟨_, _, _, _, hs⟩ := createChallenge_ok h
      subst hs
      exact ⟨hbd, hun⟩
  | submit h =>
      obtain ⟨_, _, _, _, hs⟩ := submitProof_ok h
      subst hs
      exact ⟨hbd, hun⟩
  | deactivate h =>
      obtain ⟨_, hs⟩ := deactivateChallenge_ok h
      subst hs
      exact ⟨hbd, hun⟩
  | verify h =>
      rename_i pid0 ts0
      obtain ⟨hnv, hcase⟩ := verifyProof_ok_elim h
      rcases hcase with ⟨_, hs⟩ | ⟨hz, s3, hp3, hs⟩
      · subst hs
        exact ⟨hbd, hun⟩
      · obtain ⟨_, _, hnft, _, _, _, hus, _, _, _, hnc, _⟩ :=
          payReward_ok_frame hp3
        subst hs
        have hbd1 : NFTIndexBounded (flipVerified s pid0) := hbd
        have hun1 : CredentialUniqueness (flipVerified s pid0) := hun
        obtain ⟨hbA, huA⟩ := applyCredential_inv hbd1 hun1
        constructor
        · intro u id hid
          have hid' : id ∈ s3.userNFTs u := hid
          rw [hus] at hid'
          show 1 ≤ id ∧ id ≤ s3.nftCounter
          rw [hnc]
          exact hbA u id hid'
        · intro u
          show (s3.userNFTs u).Pairwise
            (fun a b => (s3.skillNFTs a).skillType ≠
              (s3.skillNFTs b).skillType)
          rw [hus, hnft]
          exact huA u

theorem reachable_nft_inv {s : ContractState} (h : Reachable s) :
    NFTIndexBounded s ∧ CredentialUniqueness s := by
  induction h with
  | refl =>
      constructor
      · intro u id hid
        cases hid
      · intro u
        exact List.Pairwise.nil
  | tail _ hstep ih =>
      exact step_nft_inv hstep ih.1 ih.2

theorem step_proofs_default {s s' : ContractState} (hstep : Step s s')
    (hP : ∀ pid, (pid = 0 ∨ s.proofCounter < pid) →
      s.proofs pid = defaultProof) :
    ∀ pid, (pid = 0 ∨ s'.proofCounter < pid) → s'.proofs pid = defaultProof := by
  cases hstep with
  | create h =>
      obtain ⟨_, _, _, _, hs⟩ := createChallenge_ok h
      subst hs
      exact hP
  | deactivate h =>
      obtain ⟨_, hs⟩ := deactivateChallenge_ok h
      subst hs
      exact hP
  | submit h =>
      obtain ⟨_, _, _, _, hs⟩ := submitProof_ok h
      subst hs
      intro pid hp
      have hp' : pid = 0 ∨ s.proofCounter + 1 < pid := hp
      show (updMap s.proofs (s.proofCounter + 1) _) pid = defaultProof
      rw [updMap_ne _ _ _ (by omega)]
      exact hP pid (by omega)
  | verify h =>
      rename_i pid0 ts0
      obtain ⟨hnv, hcase⟩ := verifyProof_ok_elim h
      rcases hcase with ⟨_, hs⟩ | ⟨hz, s3, hp3, hs⟩
      · subst hs
        exact hP
      · obtain ⟨_, hpr, _, _, _, _, _, _, _, hpc, _, _⟩ :=
          payReward_ok_frame hp3
        obtain ⟨_, hapr, _, _, _, hapc, _, _⟩ := applyCredential_frame
          (flipVerified s pid0) (s.proofs pid0) ts0
        subst hs
        have hvalid : ¬ (pid0 = 0 ∨ s.proofCounter < pid0) := by
          intro hc
          rw [hP pid0 hc] at hz
          exact absurd hz (by decide)
        have hcnt : s3.proofCounter = s.proofCounter := by
          rw [hpc, hapc]
          rfl
        intro pid hp
        have hp2 : pid = 0 ∨ s3.proofCounter < pid := hp
        rw [hcnt] at hp2
        show s3.proofs pid = defaultProof
        rw [hpr, hapr]
        show (updMap s.proofs pid0 { s.proofs pid0 with verified := true })
          pid = defaultProof
        rw [updMap_ne _ _ _ (by omega : pid ≠ pid0)]
        exact hP pid hp2

theorem reachable_proofs_default {s : ContractState} (h : Reachable s) :
    ∀ pid, (pid = 0 ∨ s.proofCounter < pid) → s.proofs pid = defaultProof := by
  induction h with
  | refl =>
      intro pid _
      rfl
  | tail _ hstep ih =>
      exact step_proofs_default hstep ih

theorem reachable_stE : Reachable stE := by
  have h0 : Reachable initialState := Relation.ReflTransGen.refl
  have h1 : Reachable stA := Relation.ReflTransGen.tail h0
    (Step.create (rfl : createChallenge initialState 1 100 "react" 5 3600 10 7
      = .ok (stA, 1)))
  have h2 : Reachable stB := Relation.ReflTransGen.tail h1
    (Step.submit (rfl : submitProof stA 2 1 1 85 11 13 = .ok (stB, 1)))
  have h3 : Reachable stC := Relation.ReflTransGen.tail h2
    (Step.verify (rfl : verifyProof stB 1 1000 = .ok stC))
  have h4 : Reachable stD := Relation.ReflTransGen.tail h3
    (Step.submit (rfl : submitProof stC 2 1 2 65 17 19 = .ok (stD, 2)))
  exact Relation.ReflTransGen.tail h4
    (Step.verify (rfl : verifyProof stD 2 1001 = .ok stE))

/-- C5: in every reachable state each owner's credential index never holds
two credentials with the same skill type (at most one credential per owner
and skill type); and a verified proof whose owner already holds a credential
for the challenge's skill type (found by the skill-type-equality lookup)
updates it in place: the NFT counter does not advance and the
owner-to-credential index is completely unchanged, so no second credential
is created. -/
theorem C5_unique_credential_per_skill :
    (∀ s : ContractState, Reachable s → CredentialUniqueness s)
    ∧ (∀ (s s' : ContractState) (proofId timestamp e : Nat),
        (s.proofs proofId).verified = false →
        verifyZKProof (s.proofs proofId).zkProof = true →
        findUserSkillNFT s (s.proofs proofId).solver
          (s.challenges (s.proofs proofId).challengeId).challengeType = e →
        0 < e →
        verifyProof s proofId timestamp = .ok s' →
        s'.nftCounter = s.nftCounter ∧ s'.userNFTs = s.userNFTs) := by
  constructor
  · intro s h
    exact (reachable_nft_inv h).2
  · intro s s' proofId timestamp e hnv hv he hpos hok
    rw [verifyProof_valid hnv hv] at hok
    have he1 : findUserSkillNFT (flipVerified s proofId)
        (s.proofs proofId).solver
        ((flipVerified s proofId).challenges
          (s.proofs proofId).challengeId).challengeType = e := he
    rw [applyCredential_update he1 hpos] at hok
    split at hok
    · exact absurd hok (by simp)
    · rename_i s3 hp
      simp only [Except.ok.injEq] at hok
      obtain ⟨_, _, _, _, _, _, hus, _, _, _, hnc, _⟩ := payReward_ok_frame hp
      subst hok
      constructor
      · show s3.nftCounter = s.nftCounter
        rw [hnc]
        rfl
      · show s3.userNFTs = s.userNFTs
        rw [hus]
        rfl

/-- C5 witness: scenario state E is reachable and its credential index is
skill-type-unique; and the verification from state D to state E took the
update path, leaving the NFT counter and the whole owner index unchanged. -/
theorem C5_unique_credential_per_skill_witness :
    CredentialUniqueness stE ∧
    (stE.nftCounter = stD.nftCounter ∧ stE.userNFTs = stD.userNFTs) :=
  ⟨C5_unique_credential_per_skill.1 stE reachable_stE,
   C5_unique_credential_per_skill.2 stD stE 2 1001 1 (by decide) (by decide)
     (by decide) (by decide) (rfl : verifyProof stD 2 1001 = .ok stE)⟩

/-- C10: verifying a proofId that no submission ever produced (id 0 or any
id above the current proof counter, whose stored record is therefore the
zero-valued default) is not reported as an error: the default record passes
the already-verified check, its zero proof token makes the oracle return
false, and the call returns successfully having only appended the
verification-failed signal, with challenges, proofs, credentials, indexes
and balances all unchanged. -/
theorem C10_nonexistent_proofId_not_an_error :
    ∀ (s : ContractState) (proofId timestamp : Nat), Reachable s →
    (proofId = 0 ∨ s.proofCounter < proofId) →
    verifyProof s proofId timestamp =
      .ok { s with events := s.events ++ [.SkillVerified proofId false] } := by
  intro s proofId timestamp hr hp
  have hd := reachable_proofs_default hr proofId hp
  refine verifyProof_invalid ?_ ?_
  · rw [hd]
    rfl
  · rw [hd]
    rfl

/-- C10 witness: in reachable scenario state E (proof counter 2), verifying
the never-issued proofId 7 succeeds, appending only the failed-verification
signal, and verifying proofId 0 from the initial state does the same. -/
theorem C10_nonexistent_proofId_not_an_error_witness :
    verifyProof stE 7 0 =
      .ok { stE with events := stE.events ++ [.SkillVerified 7 false] } ∧
    verifyProof initialState 0 0 =
      .ok { initialState with
        events := initialState.events ++ [.SkillVerified 0 false] } :=
  ⟨C10_nonexistent_proofId_not_an_error stE 7 0 reachable_stE
     (.inr (by decide)),
   C10_nonexistent_proofId_not_an_error initialState 0 0
     Relation.ReflTransGen.refl (.inl rfl)⟩

end ProofOfSkill
